import Mathlib

/-!
Shallow embedding of `src/SlackGhost.ts` (matrix-appservice-slack).

The `SlackGhost` class mirrors a Slack user's identity onto a Matrix puppet.
Its mutable per-instance state (`userInfoCache`, `userInfoLoading`,
`displayName`, `avatarUrl`, `atime`) is modelled as an explicit record
`GhostState`.  Asynchronous remote calls are modelled by an explicit `World`
record holding, for each request, the outcome the corresponding promise will
eventually settle with; a pending promise stored in `userInfoLoading` is
therefore represented by that eventual outcome.  Metric counters
(`incRemoteCallCounter`) are modelled by returning the number of increments,
and puppet/store side effects by returning the list of calls performed.
-/

set_option autoImplicit false

namespace SlackGhost

/-- `ISlackUser.profile` payload of the `users.info` Slack API response
(source lines 12-23).  Every field is optional in the JSON. -/
structure ISlackProfile where
  display_name : Option String := none
  real_name : Option String := none
  image_original : Option String := none
  image_1024 : Option String := none
  image_512 : Option String := none
  image_192 : Option String := none
  image_72 : Option String := none
  image_48 : Option String := none
deriving DecidableEq

/-- `ISlackUser` (source lines 12-23): the `user` object, with an optional
`profile`. -/
structure ISlackUser where
  profile : Option ISlackProfile := none
deriving DecidableEq

/-- Outcome a `users.info` request promise eventually settles with:
either a transport-level rejection, or a resolved JSON body `{user?}`. -/
inductive FetchOutcome where
  | failure
  | ok (user : Option ISlackUser)
deriving DecidableEq

/-- How long in milliseconds to cache user info lookups (source line 10). -/
def USER_CACHE_TIMEOUT : Nat := 10 * 60 * 1000

/-- The mutable fields of a `SlackGhost` instance.  `userInfoLoading` holds
the in-flight `users.info` promise, represented by its eventual outcome;
`evictAt` is the absolute firing time of the `setTimeout` scheduled on source
line 136 (none when no eviction timer is pending). -/
structure GhostState where
  userId : Option String := none
  displayName : Option String := none
  avatarUrl : Option String := none
  userInfoCache : Option ISlackUser := none
  userInfoLoading : Option FetchOutcome := none
  evictAt : Option Nat := none
  atime : Option Nat := none
deriving DecidableEq

/-- The environment of remote collaborators: the response `users.info` would
settle with for given `(slackUserId, slackAccessToken)` query arguments, and
the media pipeline of `updateAvatar` (avatar-URL fetch + `uploadContent`),
mapping an avatar URL to the resulting content URI (`none` = the fetch or
upload rejects). -/
structure World where
  usersInfo : String → String → FetchOutcome
  media : String → Option String

/-- Result of one `lookupUserInfo` call: the resolved `user` object, the
`undefined` return, or a propagated promise rejection. -/
inductive LookupRes where
  | found (u : ISlackUser)
  | absent
  | thrown
deriving DecidableEq

/-- What the synchronous part of `lookupUserInfo` (up to its first `await`)
did: returned the cache, joined the existing in-flight promise (capturing it),
or initiated a fresh fetch (capturing the promise it created). -/
inductive StartStep where
  | cached (u : ISlackUser)
  | joined (r : FetchOutcome)
  | fetch (r : FetchOutcome)
deriving DecidableEq

/-- Synchronous part of `lookupUserInfo` (source lines 108-129), given the
outcome `wf` the `users.info` request would settle with.  Returns the step
taken, the state after it, and the number of `incRemoteCallCounter`
increments (line 121). -/
def lookupStartO (wf : FetchOutcome) (s : GhostState) : StartStep × GhostState × Nat :=
  match s.userInfoCache with
  | some u => (.cached u, s, 0)
  | none =>
    match s.userInfoLoading with
    | some r => (.joined r, s, 0)
    | none => (.fetch wf, { s with userInfoLoading := some wf }, 1)

/-- Resumption of a caller that joined an existing in-flight promise
(source lines 112-118): it returns `response.user` whenever present —
without checking `profile` — and `undefined` otherwise; a rejection
propagates.  The ghost state is not touched on this path. -/
def joinerResume (r : FetchOutcome) : LookupRes :=
  match r with
  | .failure => .thrown
  | .ok (some u) => .found u
  | .ok none => .absent

/-- Resumption of the caller that initiated the fetch (source lines 130-138),
at time `now`.  On a well-formed response it stores the user in
`userInfoCache`, schedules eviction after `USER_CACHE_TIMEOUT`, and clears
`userInfoLoading`.  On a rejection the exception propagates and on a
malformed response (`user` or `profile` missing) it returns early — in both
cases `userInfoLoading` is left set (nothing in the source resets it). -/
def initiatorResume (now : Nat) (r : FetchOutcome) (s : GhostState) : GhostState × LookupRes :=
  match r with
  | .failure => (s, .thrown)
  | .ok none => (s, .absent)
  | .ok (some u) =>
    match u.profile with
    | none => (s, .absent)
    | some _ =>
      ({ s with userInfoCache := some u,
                evictAt := some (now + USER_CACHE_TIMEOUT),
                userInfoLoading := none }, .found u)

/-- `lookupUserInfo(slackUserId, slackAccessToken)` (source lines 107-139)
run to completion with no interleaved callers, resolving at time `now`.
Returns the state after the call, the call's result, and the number of
remote-call counter increments. -/
def lookupUserInfo (slackUserId slackAccessToken : String) (w : World) (now : Nat)
    (s : GhostState) : GhostState × LookupRes × Nat :=
  match lookupStartO (w.usersInfo slackUserId slackAccessToken) s with
  | (.cached u, s1, n) => (s1, .found u, n)
  | (.joined r, s1, n) => (s1, joinerResume r, n)
  | (.fetch r, s1, n) =>
    let p := initiatorResume now r s1
    (p.1, p.2, n)

/-- `setTimeout(() => this.userInfoCache = undefined, USER_CACHE_TIMEOUT)`
(source line 136): the pending eviction timer fires once its scheduled time
is reached, clearing only `userInfoCache`. -/
def fireTimers (now : Nat) (s : GhostState) : GhostState :=
  match s.evictAt with
  | some t => if t ≤ now then { s with userInfoCache := none, evictAt := none } else s
  | none => s

/-- Start phase of `n` callers of `lookupUserInfo` entering back-to-back in
the single-threaded event loop: each runs its synchronous part (a caller can
only start while earlier ones are suspended at an `await`).  `wf` is the
outcome of the single `users.info` request any of them would issue. -/
def startPhase (wf : FetchOutcome) : Nat → GhostState → List StartStep × GhostState × Nat
  | 0, s => ([], s, 0)
  | n + 1, s =>
    let (st, s1, c1) := lookupStartO wf s
    let (sts, s2, c2) := startPhase wf n s1
    (st :: sts, s2, c1 + c2)

/-- Resumption of one started caller once the shared promise has settled
(callers resume in the order they awaited, which is their start order). -/
def resolveStep (now : Nat) (s : GhostState) : StartStep → GhostState × LookupRes
  | .cached u => (s, .found u)
  | .joined r => (s, joinerResume r)
  | .fetch r => initiatorResume now r s

/-- Resolution phase: resume every started caller in order, threading the
ghost state. -/
def resolvePhase (now : Nat) : List StartStep → GhostState → GhostState × List LookupRes
  | [], s => (s, [])
  | st :: sts, s =>
    let (s1, r) := resolveStep now s st
    let (s2, rs) := resolvePhase now sts s1
    (s2, r :: rs)

/-- `n` concurrent `lookupUserInfo` calls for the same subject, all entered
before the first one's fetch resolves (at time `now`): returns the final
state, the per-caller results in start order, and the total number of
remote-call counter increments. -/
def runN (slackUserId slackAccessToken : String) (w : World) (now : Nat) (n : Nat)
    (s0 : GhostState) : GhostState × List LookupRes × Nat :=
  let sp := startPhase (w.usersInfo slackUserId slackAccessToken) n s0
  let rp := resolvePhase now sp.1 sp.2.1
  (rp.1, rp.2, sp.2.2)

/-- JavaScript truthiness of an optional string: `undefined` and the empty
string are falsy. -/
def truthy : Option String → Bool
  | none => false
  | some s => !(s == "")

/-- JavaScript `a || b` on optional strings: `a` when truthy, else `b`. -/
def jsOr (a b : Option String) : Option String :=
  if truthy a then a else b

/-- Body of `getDisplayname` after the lookup (source lines 69-71):
`user.profile.display_name || user.profile.real_name` when `user` and
`user.profile` are present, `undefined` otherwise. -/
def displayNameFromUser (user : Option ISlackUser) : Option String :=
  match user with
  | none => none
  | some u =>
    match u.profile with
    | none => none
    | some p => jsOr p.display_name p.real_name

/-- Value of an async computation that either resolved or rejected. -/
inductive Outcome (α : Type) where
  | val (a : α)
  | thrown
deriving DecidableEq

/-- `getDisplayname(slackUserId, slackAccessToken)` (source lines 67-72):
awaits `lookupUserInfo` (a rejection propagates) and extracts the preferred
name. -/
def getDisplayname (slackUserId slackAccessToken : String) (w : World) (now : Nat)
    (s : GhostState) : GhostState × Outcome (Option String) × Nat :=
  match lookupUserInfo slackUserId slackAccessToken w now s with
  | (s1, .thrown, n) => (s1, .thrown, n)
  | (s1, .absent, n) => (s1, .val none, n)
  | (s1, .found u, n) => (s1, .val (displayNameFromUser (some u)), n)

/-- One puppet-API identity write performed through `this.intent`. -/
inductive PuppetCall where
  | setDisplayName (name : String)
  | setAvatarUrl (contentUri : String)
deriving DecidableEq

/-- Observable effects of one `updateDisplayname`/`updateAvatar` call:
the state afterwards, the puppet-API writes performed, the number of
`putUserToStore` persistence calls, the number of remote-call counter
increments, and whether the call rejected. -/
structure SyncResult where
  state : GhostState
  calls : List PuppetCall
  stores : Nat
  remote : Nat
  threw : Bool
deriving DecidableEq

/-- Tail of `updateDisplayname` (source lines 86-92) once the name `dn` has
been resolved, with `n` remote-call increments already performed:
`if (!displayName || this.displayName === displayName) return;` then
`setDisplayName`, record update, `putUserToStore`. -/
def finishDisplayname (dn : Option String) (s : GhostState) (n : Nat) : SyncResult :=
  match dn with
  | none => ⟨s, [], 0, n, false⟩
  | some d =>
    if d = "" then ⟨s, [], 0, n, false⟩
    else if s.displayName = some d then ⟨s, [], 0, n, false⟩
    else ⟨{ s with displayName := some d }, [.setDisplayName d], 1, n, false⟩

/-- An inbound Slack message event, as used by the sync paths: `user_id` and
the optional inline `user_name`. -/
structure SlackMessage where
  user_id : String
  user_name : Option String := none
deriving DecidableEq

/-- The room collaborator: only its `AccessToken` getter is consumed here. -/
structure BridgedRoom where
  AccessToken : Option String := none
deriving DecidableEq

/-- `updateDisplayname(message, room)` (source lines 74-93): no-op without a
(truthy) token; prefer `message.user_name`; when that is falsy fall back to
`getDisplayname`; then apply the diff-and-push tail. -/
def updateDisplayname (message : SlackMessage) (room : BridgedRoom) (w : World) (now : Nat)
    (s : GhostState) : SyncResult :=
  match room.AccessToken with
  | none => ⟨s, [], 0, 0, false⟩
  | some token =>
    if token = "" then ⟨s, [], 0, 0, false⟩
    else if truthy message.user_name then finishDisplayname message.user_name s 0
    else
      match getDisplayname message.user_id token w now s with
      | (s1, .thrown, n) => ⟨s1, [], 0, n, true⟩
      | (s1, .val dn, n) => finishDisplayname dn s1 n

/-- The avatar candidate chain of `lookupAvatarUrl` (source lines 102-104):
`image_original || image_1024 || image_512 || image_192 || image_72 ||
image_48`. -/
def avatarChain (p : ISlackProfile) : Option String :=
  jsOr p.image_original (jsOr p.image_1024 (jsOr p.image_512
    (jsOr p.image_192 (jsOr p.image_72 p.image_48))))

/-- Body of `lookupAvatarUrl` after the lookup (source lines 97-104):
`undefined` when `user` or `user.profile` is missing, else the candidate
chain. -/
def avatarFromUser (user : Option ISlackUser) : Option String :=
  match user with
  | none => none
  | some u =>
    match u.profile with
    | none => none
    | some p => avatarChain p

/-- `lookupAvatarUrl(slackUserId, slackAccessToken)` (source lines 95-105). -/
def lookupAvatarUrl (slackUserId slackAccessToken : String) (w : World) (now : Nat)
    (s : GhostState) : GhostState × Outcome (Option String) × Nat :=
  match lookupUserInfo slackUserId slackAccessToken w now s with
  | (s1, .thrown, n) => (s1, .thrown, n)
  | (s1, .absent, n) => (s1, .val none, n)
  | (s1, .found u, n) => (s1, .val (avatarFromUser (some u)), n)

/-- The match `avatarUrl.match(/\/([^\/]+)$/)` of source line 152: the final
path segment after the last slash, when nonempty; `none` when the URL has no
slash or ends with one. -/
def lastSegment (a : String) : Option String :=
  let rev := a.toList.reverse
  let seg := rev.takeWhile (fun c => !(c == '/'))
  if seg.length = 0 then none
  else if seg.length = rev.length then none
  else some (String.mk seg.reverse)

/-- Tail of `updateAvatar` (source lines 148-171) once the avatar URL `av`
has been resolved: diff against the stored `avatarUrl`, extract the filename
token, fetch + upload the image (`w.media`, a rejection propagates), push the
content URI to the puppet, update the record and persist. -/
def finishAvatar (w : World) (av : Option String) (s : GhostState) (n : Nat) : SyncResult :=
  match av with
  | none => ⟨s, [], 0, n, false⟩
  | some a =>
    if a = "" then ⟨s, [], 0, n, false⟩
    else if s.avatarUrl = some a then ⟨s, [], 0, n, false⟩
    else
      match lastSegment a with
      | none => ⟨s, [], 0, n, false⟩
      | some _ =>
        match w.media a with
        | none => ⟨s, [], 0, n, true⟩
        | some contentUri =>
          ⟨{ s with avatarUrl := some a }, [.setAvatarUrl contentUri], 1, n, false⟩

/-- `updateAvatar(message, room)` (source lines 141-172). -/
def updateAvatar (message : SlackMessage) (room : BridgedRoom) (w : World) (now : Nat)
    (s : GhostState) : SyncResult :=
  match room.AccessToken with
  | none => ⟨s, [], 0, 0, false⟩
  | some token =>
    if token = "" then ⟨s, [], 0, 0, false⟩
    else
      match lookupAvatarUrl message.user_id token w now s with
      | (s1, .thrown, n) => ⟨s1, [], 0, n, true⟩
      | (s1, .val av, n) => finishAvatar w av s1 n

/-- Observable effects of one `update` call. -/
structure UpdateResult where
  state : GhostState
  calls : List PuppetCall
  stores : Nat
  remote : Nat
deriving DecidableEq

/-- `update(message, room)` (source lines 55-65): runs both sync paths via
`Promise.all`, each with its own error handler, so `update` itself never
rejects.  The two tasks interleave only at `await` points and their puppet
writes and final record fields do not depend on the interleaving (each one's
diff is computed from values the other never writes); we model the
displayname task running first. -/
def update (message : SlackMessage) (room : BridgedRoom) (w : World) (now : Nat)
    (s : GhostState) : UpdateResult :=
  let r1 := updateDisplayname message room w now s
  let r2 := updateAvatar message room w now r1.state
  ⟨r2.state, r1.calls ++ r2.calls, r1.stores + r2.stores, r1.remote + r2.remote⟩

/-- The serialized entry representation `{ id, display_name, avatar_url }`
(source lines 47-53). -/
structure Entry where
  id : Option String := none
  display_name : Option String := none
  avatar_url : Option String := none
deriving DecidableEq

/-- `SlackGhost.fromEntry(main, entry, intent)` (source lines 37-45): builds
a ghost from the three persisted fields; the cache fields and `atime` start
`undefined`. -/
def fromEntry (entry : Entry) : GhostState :=
  { userId := entry.id
    displayName := entry.display_name
    avatarUrl := entry.avatar_url
    userInfoCache := none
    userInfoLoading := none
    evictAt := none
    atime := none }

/-- `toEntry()` (source lines 47-53). -/
def toEntry (s : GhostState) : Entry :=
  { id := s.userId
    display_name := s.displayName
    avatar_url := s.avatarUrl }

/-- `bumpATime()` (source lines 231-233), with `now` the current time in
seconds. -/
def bumpATime (now : Nat) (s : GhostState) : GhostState :=
  { s with atime := some now }

/-- Spec-side avatar candidate order (spec section 3, RemoteProfile):
original > 1024 > 512 > 192 > 72 > 48. -/
def avatarCandidates (p : ISlackProfile) : List (Option String) :=
  [p.image_original, p.image_1024, p.image_512, p.image_192, p.image_72, p.image_48]

/-- Modelled from the spec: the first non-absent candidate of an ordered
list, where — per the source's JavaScript truthiness convention, also used by
the spec at the public interface — an empty string counts as absent. -/
def firstNonAbsent : List (Option String) → Option String
  | [] => none
  | c :: cs => if truthy c then c else firstNonAbsent cs

/-- Normalize a JavaScript-falsy optional string to `none` (used to compare a
source value with a spec-side value up to absence). -/
def truthyOpt (o : Option String) : Option String :=
  if truthy o then o else none

/-- A character the JavaScript regex `.` matches: anything but a line
terminator. -/
def isDotChar (c : Char) : Bool :=
  !(c == '\n' || c == '\r' || c.toNat == 0x2028 || c.toNat == 0x2029)

/-- The literal head of the mention pattern of source line 181. -/
def mentionHead : List Char :=
  ['<', 'h', 't', 't', 'p', 's', ':', '/', '/', 'm', 'a', 't', 'r', 'i', 'x',
   '.', 't', 'o', '/', '#', '/', '@']

/-- Length of the maximal run of `.`-matchable characters at the head of a
list. -/
def dotRun : List Char → Nat
  | [] => 0
  | c :: cs => if isDotChar c then dotRun cs + 1 else 0

/-- Backtracking matcher for one greedy `.+sep` segment: try the candidate
prefix lengths from `p` (at most `dotRun l`) down to 1; a candidate of length
`q` succeeds when the character at index `q` is `sep` and the continuation
`k` succeeds on the captured prefix and the characters after `sep`.  This is
exactly the JavaScript backtracking order: longest first. -/
def greedyGo (sep : Char) (l : List Char)
    (k : List Char → List Char → Option (List Char × List Char)) :
    Nat → Option (List Char × List Char)
  | 0 => none
  | p + 1 =>
    match (if l.get? (p + 1) = some sep then k (l.take (p + 1)) (l.drop (p + 2)) else none) with
    | some r => some r
    | none => greedyGo sep l k p

/-- One greedy `.+sep` segment starting at `l`. -/
def greedySeg (sep : Char) (l : List Char)
    (k : List Char → List Char → Option (List Char × List Char)) :
    Option (List Char × List Char) :=
  greedyGo sep l k (dotRun l)

/-- The tail `.+:.+\|(.+)>` of the mention regex, matched with JavaScript
greedy-backtracking semantics; on success returns the text captured by the
group and the characters after the match. -/
def matchTail (l : List Char) : Option (List Char × List Char) :=
  greedySeg ':' l (fun _ l1 =>
    greedySeg '|' l1 (fun _ l2 =>
      greedySeg '>' l2 (fun grp rest => some (grp, rest))))

/-- Attempt of the full mention regex `<https:\/\/matrix\.to\/#\/@.+:.+\|(.+)>`
anchored at the head of `l`. -/
def matchAt (l : List Char) : Option (List Char × List Char) :=
  if mentionHead.isPrefixOf l then matchTail (l.drop mentionHead.length) else none

/-- Global scan of `text.replace(pattern, "$1")` (source line 181): find the
leftmost match, emit the captured group in place of the matched span, and
continue after it.  The fuel is the input length; every step consumes at
least one character, so it never runs out before the input is exhausted. -/
def replaceGo : Nat → List Char → List Char
  | 0, l => l
  | _ + 1, [] => []
  | fuel + 1, c :: cs =>
    match matchAt (c :: cs) with
    | some (grp, rest) => grp ++ replaceGo fuel rest
    | none => c :: replaceGo fuel cs

/-- The mention rewrite performed by `sendText` before formatting (source
line 181):
`text.replace(/<https:\/\/matrix\.to\/#\/@.+:.+\|(.+)>/g, "$1")`. -/
def mentionReplace (text : String) : String :=
  String.mk (replaceGo text.length text.toList)

/-- Whether the mention pattern matches anywhere in `text`. -/
def hasMention (text : String) : Bool :=
  (List.range (text.length + 1)).any fun i => (matchAt (text.toList.drop i)).isSome

/-! ### Concrete fixtures used by witnesses and counterexamples -/

/-- A freshly constructed ghost: every mutable field `undefined`. -/
def ghost0 : GhostState := {}

/-- World whose `users.info` resolves with a body missing the `user` field. -/
def wMalformedC1 : World := ⟨fun _ _ => .ok none, fun _ => none⟩

/-- World whose `users.info` request rejects at the transport level. -/
def wFailC1 : World := ⟨fun _ _ => .failure, fun _ => none⟩

/-- A `user` object carrying no `profile`. -/
def uNoProfileC2 : ISlackUser := ⟨none⟩

/-- World resolving with a user that has no profile. -/
def wNoProfileC2 : World := ⟨fun _ _ => .ok (some uNoProfileC2), fun _ => none⟩

/-- A well-formed user. -/
def uGoodC2 : ISlackUser := ⟨some { display_name := some "N" }⟩

/-- World resolving with a well-formed user. -/
def wGoodC2 : World := ⟨fun _ _ => .ok (some uGoodC2), fun _ => none⟩

/-- A cached user for the TTL scenario. -/
def uC3 : ISlackUser := ⟨some {}⟩

/-- Ghost state holding `uC3` in cache with eviction scheduled for time
`5 + USER_CACHE_TIMEOUT`. -/
def sC3 : GhostState := { userInfoCache := some uC3, evictAt := some (5 + USER_CACHE_TIMEOUT) }

/-- World for the TTL witness. -/
def wC3 : World := ⟨fun _ _ => .ok (some uC3), fun _ => none⟩

/-- Profile fetched in the idempotence scenario. -/
def pC4 : ISlackProfile := { display_name := some "SlackName", image_512 := some "https://img.example/p/ava.png" }

/-- User fetched in the idempotence scenario. -/
def uC4 : ISlackUser := ⟨some pC4⟩

/-- Event carrying an inline name. -/
def msgC4 : SlackMessage := ⟨"U1", some "Alice"⟩

/-- Room with a valid credential. -/
def roomC4 : BridgedRoom := ⟨some "xoxp-token"⟩

/-- World for the idempotence scenario: well-formed profile, media relay
succeeds. -/
def wC4 : World := ⟨fun _ _ => .ok (some uC4), fun _ => some "mxc://content/1"⟩

/-- The spec's avatar-preference example: only `image_512` and `image_192`
present. -/
def pC5 : ISlackProfile := { image_512 := some "b", image_192 := some "c" }

/-- Event carrying an inline name, for the display-name preference witness. -/
def msgC6 : SlackMessage := ⟨"U6", some "Inline"⟩

/-- Room with a valid credential. -/
def roomC6 : BridgedRoom := ⟨some "tk"⟩

/-- World for the display-name preference witness (never consulted on the
inline path). -/
def wC6 : World := ⟨fun _ _ => .ok none, fun _ => none⟩

/-- Ghost state whose stored name equals the resolved one. -/
def sC6 : GhostState := { displayName := some "Same" }

/-- A ghost state with only the three persisted fields populated. -/
def gC8a : GhostState := { userId := some "G", displayName := some "D", avatarUrl := some "A" }

/-- The same ghost after in-memory-only activity: populated cache, an
in-flight handle, a pending timer and an activity time. -/
def gC8b : GhostState :=
  { gC8a with userInfoCache := some ⟨none⟩, userInfoLoading := some .failure,
              evictAt := some 12, atime := some 99 }

/-- A cached user for the argument-independence witness. -/
def uC9 : ISlackUser := ⟨some { real_name := some "R" }⟩

/-- Ghost state with a populated `userInfoCache`. -/
def sC9 : GhostState := { userInfoCache := some uC9 }

/-- Two different worlds for the argument-independence witness. -/
def wC9a : World := ⟨fun _ _ => .ok none, fun _ => none⟩

/-- Second world for the argument-independence witness. -/
def wC9b : World := ⟨fun _ _ => .failure, fun _ => none⟩

/-- Profile whose display and real names are both the empty string. -/
def pC10 : ISlackProfile := { display_name := some "", real_name := some "" }

/-- User wrapping `pC10`. -/
def uC10 : ISlackUser := ⟨some pC10⟩

/-- Ghost state with `uC10` cached. -/
def sC10 : GhostState := { userInfoCache := some uC10 }

/-- Event carrying an empty-string inline name. -/
def msgC10 : SlackMessage := ⟨"U0", some ""⟩

/-- Room with a valid credential. -/
def roomC10 : BridgedRoom := ⟨some "tk0"⟩

/-- World for the empty-string witness (never consulted: the user is
cached). -/
def wC10 : World := ⟨fun _ _ => .failure, fun _ => none⟩

/-! ### Helper lemmas -/

/-- A cache hit returns the cached user, makes no remote call and leaves the
state untouched. -/
theorem lookupUserInfo_cached (uid tok : String) (w : World) (t : Nat) (s : GhostState)
    (u : ISlackUser) (h : s.userInfoCache = some u) :
    lookupUserInfo uid tok w t s = (s, .found u, 0) := by
  simp [lookupUserInfo, lookupStartO, h]

/-- Joining an in-flight fetch yields that promise's outcome filtered through
the joiner's `response.user` check, with no remote call and no state
change. -/
theorem lookupUserInfo_joined (uid tok : String) (w : World) (t : Nat) (s : GhostState)
    (r : FetchOutcome) (hc : s.userInfoCache = none) (hl : s.userInfoLoading = some r) :
    lookupUserInfo uid tok w t s = (s, joinerResume r, 0) := by
  simp [lookupUserInfo, lookupStartO, hc, hl]

/-- A fresh lookup resolving with a well-formed user caches it, schedules
eviction `USER_CACHE_TIMEOUT` later, clears the in-flight handle, and counts
one remote call. -/
theorem lookupUserInfo_fresh_ok (uid tok : String) (w : World) (t : Nat) (s : GhostState)
    (u : ISlackUser) (p : ISlackProfile)
    (hc : s.userInfoCache = none) (hl : s.userInfoLoading = none)
    (hw : w.usersInfo uid tok = .ok (some u)) (hp : u.profile = some p) :
    lookupUserInfo uid tok w t s =
      ({ s with userInfoCache := some u, userInfoLoading := none,
                evictAt := some (t + USER_CACHE_TIMEOUT) }, .found u, 1) := by
  simp [lookupUserInfo, lookupStartO, initiatorResume, hc, hl, hw, hp]

/-- A fresh lookup always counts exactly one remote call, whatever the
outcome. -/
theorem lookupUserInfo_fresh_counter (uid tok : String) (w : World) (t : Nat)
    (s : GhostState) (hc : s.userInfoCache = none) (hl : s.userInfoLoading = none) :
    (lookupUserInfo uid tok w t s).2.2 = 1 := by
  simp only [lookupUserInfo, lookupStartO, hc, hl]

/-- `lookupUserInfo` never writes the three persisted record fields. -/
theorem lookupUserInfo_preserves_record (uid tok : String) (w : World) (t : Nat)
    (s : GhostState) :
    ((lookupUserInfo uid tok w t s).1).displayName = s.displayName ∧
    ((lookupUserInfo uid tok w t s).1).avatarUrl = s.avatarUrl ∧
    ((lookupUserInfo uid tok w t s).1).userId = s.userId := by
  unfold lookupUserInfo lookupStartO
  cases hc : s.userInfoCache with
  | some u => simp
  | none =>
    cases hl : s.userInfoLoading with
    | some r => simp
    | none =>
      cases hw : w.usersInfo uid tok with
      | failure => simp [initiatorResume]
      | ok uo =>
        cases uo with
        | none => simp [initiatorResume]
        | some u => cases hp : u.profile <;> simp [initiatorResume, hp]

/-- `getDisplayname` on a cache hit. -/
theorem getDisplayname_cached (uid tok : String) (w : World) (t : Nat) (s : GhostState)
    (u : ISlackUser) (h : s.userInfoCache = some u) :
    getDisplayname uid tok w t s = (s, .val (displayNameFromUser (some u)), 0) := by
  simp [getDisplayname, lookupUserInfo_cached uid tok w t s u h]

/-- `getDisplayname` on a fresh well-formed fetch. -/
theorem getDisplayname_fresh_ok (uid tok : String) (w : World) (t : Nat) (s : GhostState)
    (u : ISlackUser) (p : ISlackProfile)
    (hc : s.userInfoCache = none) (hl : s.userInfoLoading = none)
    (hw : w.usersInfo uid tok = .ok (some u)) (hp : u.profile = some p) :
    getDisplayname uid tok w t s =
      ({ s with userInfoCache := some u, userInfoLoading := none,
                evictAt := some (t + USER_CACHE_TIMEOUT) },
       .val (displayNameFromUser (some u)), 1) := by
  simp [getDisplayname, lookupUserInfo_fresh_ok uid tok w t s u p hc hl hw hp]

/-- `getDisplayname` never writes `displayName`. -/
theorem getDisplayname_preserves_displayName (uid tok : String) (w : World) (t : Nat)
    (s : GhostState) :
    ((getDisplayname uid tok w t s).1).displayName = s.displayName := by
  have h := (lookupUserInfo_preserves_record uid tok w t s).1
  unfold getDisplayname
  rcases he : lookupUserInfo uid tok w t s with ⟨s1, r, n⟩
  rw [he] at h
  cases r <;> simpa using h

/-- `lookupAvatarUrl` on a cache hit. -/
theorem lookupAvatarUrl_cached (uid tok : String) (w : World) (t : Nat) (s : GhostState)
    (u : ISlackUser) (h : s.userInfoCache = some u) :
    lookupAvatarUrl uid tok w t s = (s, .val (avatarFromUser (some u)), 0) := by
  simp [lookupAvatarUrl, lookupUserInfo_cached uid tok w t s u h]

/-- `lookupAvatarUrl` on a fresh well-formed fetch. -/
theorem lookupAvatarUrl_fresh_ok (uid tok : String) (w : World) (t : Nat) (s : GhostState)
    (u : ISlackUser) (p : ISlackProfile)
    (hc : s.userInfoCache = none) (hl : s.userInfoLoading = none)
    (hw : w.usersInfo uid tok = .ok (some u)) (hp : u.profile = some p) :
    lookupAvatarUrl uid tok w t s =
      ({ s with userInfoCache := some u, userInfoLoading := none,
                evictAt := some (t + USER_CACHE_TIMEOUT) },
       .val (avatarFromUser (some u)), 1) := by
  simp [lookupAvatarUrl, lookupUserInfo_fresh_ok uid tok w t s u p hc hl hw hp]

/-- `updateDisplayname` with a valid token and a truthy inline name skips the
lookup entirely. -/
theorem updateDisplayname_inline (message : SlackMessage) (room : BridgedRoom) (w : World)
    (t : Nat) (s : GhostState) (token : String)
    (htok : room.AccessToken = some token) (h0 : token ≠ "")
    (htm : truthy message.user_name = true) :
    updateDisplayname message room w t s = finishDisplayname message.user_name s 0 := by
  simp [updateDisplayname, htok, h0, htm]

/-- `updateDisplayname` with a valid token and a falsy inline name resolves
through `getDisplayname`. -/
theorem updateDisplayname_fallback (message : SlackMessage) (room : BridgedRoom) (w : World)
    (t : Nat) (s s1 : GhostState) (token : String) (dn : Option String) (n : Nat)
    (htok : room.AccessToken = some token) (h0 : token ≠ "")
    (htm : truthy message.user_name = false)
    (hg : getDisplayname message.user_id token w t s = (s1, .val dn, n)) :
    updateDisplayname message room w t s = finishDisplayname dn s1 n := by
  simp [updateDisplayname, htok, h0, htm, hg]

/-- `updateAvatar` with a valid token and a resolved (non-thrown) avatar
lookup continues with the diff-and-push tail. -/
theorem updateAvatar_resolved (message : SlackMessage) (room : BridgedRoom) (w : World)
    (t : Nat) (s s1 : GhostState) (token : String) (av : Option String) (n : Nat)
    (htok : room.AccessToken = some token) (h0 : token ≠ "")
    (hla : lookupAvatarUrl message.user_id token w t s = (s1, .val av, n)) :
    updateAvatar message room w t s = finishAvatar w av s1 n := by
  simp [updateAvatar, htok, h0, hla]

/-- The display-name tail pushes and persists exactly when the resolved name
is truthy and differs from the stored one. -/
theorem finishDisplayname_write (d : String) (s : GhostState) (n : Nat)
    (hd0 : d ≠ "") (hds : s.displayName ≠ some d) :
    finishDisplayname (some d) s n =
      ⟨{ s with displayName := some d }, [.setDisplayName d], 1, n, false⟩ := by
  simp [finishDisplayname, hd0, hds]

/-- The display-name tail is a no-op when the resolved name is falsy or equal
to the stored one. -/
theorem finishDisplayname_noop (dn : Option String) (s : GhostState) (n : Nat)
    (h : truthy dn = false ∨ s.displayName = dn) :
    finishDisplayname dn s n = ⟨s, [], 0, n, false⟩ := by
  cases dn with
  | none => rfl
  | some d =>
    rcases h with h | h
    · have hd : d = "" := by simpa [truthy] using h
      simp [finishDisplayname, hd]
    · by_cases hd : d = ""
      · simp [finishDisplayname, hd]
      · simp [finishDisplayname, hd, h]

/-- The avatar tail relays the image and pushes/persists exactly when the
resolved URL is truthy, differs from the stored one, has a filename segment
and the media relay succeeds. -/
theorem finishAvatar_write (w : World) (a : String) (s : GhostState) (n : Nat)
    (seg uri : String) (ha0 : a ≠ "") (has : s.avatarUrl ≠ some a)
    (hseg : lastSegment a = some seg) (hm : w.media a = some uri) :
    finishAvatar w (some a) s n =
      ⟨{ s with avatarUrl := some a }, [.setAvatarUrl uri], 1, n, false⟩ := by
  simp [finishAvatar, ha0, has, hseg, hm]

/-- The avatar tail is a no-op when the resolved URL equals the stored
one. -/
theorem finishAvatar_noop (w : World) (a : String) (s : GhostState) (n : Nat)
    (h : s.avatarUrl = some a) :
    finishAvatar w (some a) s n = ⟨s, [], 0, n, false⟩ := by
  by_cases h1 : a = "" <;> simp [finishAvatar, h1, h]

/-- Every caller entering while a fetch is in flight joins it: no state
change and no remote call. -/
theorem startPhase_joined (wf : FetchOutcome) :
    ∀ (n : Nat) (s : GhostState), s.userInfoCache = none → s.userInfoLoading = some wf →
      startPhase wf n s = (List.replicate n (.joined wf), s, 0)
  | 0, s, _, _ => by simp [startPhase]
  | n + 1, s, hc, hl => by
    simp [startPhase, lookupStartO, hc, hl, startPhase_joined wf n s hc hl,
      List.replicate_succ]

/-- Resuming joiners never changes the state; each receives the shared
promise's outcome. -/
theorem resolvePhase_joined (now : Nat) (wf : FetchOutcome) :
    ∀ (n : Nat) (s : GhostState),
      resolvePhase now (List.replicate n (.joined wf)) s = (s, List.replicate n (joinerResume wf))
  | 0, _ => by simp [resolvePhase]
  | n + 1, s => by
    simp [List.replicate_succ, resolvePhase, resolveStep, resolvePhase_joined now wf n s]

/-- Unfolding one resolution step in projection form. -/
theorem resolvePhase_cons (now : Nat) (st : StartStep) (sts : List StartStep)
    (s : GhostState) :
    resolvePhase now (st :: sts) s =
      ((resolvePhase now sts (resolveStep now s st).1).1,
       (resolveStep now s st).2 :: (resolvePhase now sts (resolveStep now s st).1).2) := by
  rcases h1 : resolveStep now s st with ⟨s1, r⟩
  rcases h2 : resolvePhase now sts s1 with ⟨s2, rs⟩
  simp [resolvePhase, h1, h2]

/-- A text in which the mention pattern matches nowhere is returned
unchanged by the replace scan. -/
theorem replaceGo_id : ∀ (fuel : Nat) (l : List Char),
    (∀ i, matchAt (l.drop i) = none) → replaceGo fuel l = l
  | 0, _, _ => rfl
  | _ + 1, [], _ => rfl
  | fuel + 1, c :: cs, h => by
    have h0 : matchAt (c :: cs) = none := by simpa using h 0
    have ih := replaceGo_id fuel cs (fun i => by simpa using h (i + 1))
    simp [replaceGo, h0, ih]

/-! ### Claim theorems -/

/-- C1: the claim states that after a failed or malformed fetch the cache
entry is empty and an immediately following `lookupUserInfo` issues a new
remote call.  Evaluating the code at those inputs shows the opposite: the
error paths of `lookupUserInfo` never reset `userInfoLoading`, so the retry
joins the stale settled promise — zero further remote-call increments, the
absence (or the rethrown failure) is cached forever. -/
theorem C1_failed_lookup_is_cached_forever :
    ((lookupUserInfo "U" "T" wMalformedC1 0 ghost0).2.2 = 1 ∧
      (lookupUserInfo "U" "T" wMalformedC1 0
          (lookupUserInfo "U" "T" wMalformedC1 0 ghost0).1).2.2 = 0 ∧
      (lookupUserInfo "U" "T" wMalformedC1 0 ghost0).1.userInfoLoading =
        some (.ok none) ∧
      (lookupUserInfo "U" "T" wMalformedC1 0
          (lookupUserInfo "U" "T" wMalformedC1 0 ghost0).1).2.1 = .absent) ∧
    ((lookupUserInfo "U" "T" wFailC1 0 ghost0).2.2 = 1 ∧
      (lookupUserInfo "U" "T" wFailC1 0
          (lookupUserInfo "U" "T" wFailC1 0 ghost0).1).2.2 = 0 ∧
      (lookupUserInfo "U" "T" wFailC1 0
          (lookupUserInfo "U" "T" wFailC1 0 ghost0).1).2.1 = .thrown) := by
  decide

/-- C2 counterexample: two concurrent lookups during one fetch that resolves
with a user lacking a profile make exactly one remote call but do not
receive the same outcome — the initiator gets absence, the joiner gets the
malformed user object.  The claim's "all N callers receive the same resolved
result or the same failure-as-absence outcome" is false. -/
theorem C2_counterexample :
    (runN "U" "T" wNoProfileC2 0 2 ghost0).2.2 = 1 ∧
    (runN "U" "T" wNoProfileC2 0 2 ghost0).2.1 =
      [LookupRes.absent, LookupRes.found uNoProfileC2] ∧
    LookupRes.absent ≠ LookupRes.found uNoProfileC2 := by
  decide

/-- C2 (amended): for `n + 1` concurrent lookups of the same subject issued
while the first fetch is unresolved, exactly one remote call is made; all
callers receive the same failure on transport failure, the same absence on a
missing-user body, and the same user on a well-formed body — but on a body
whose user lacks a profile, the initiating caller receives absence while the
joiners receive the user object. -/
theorem C2_cache_coalescing_amended (uid tok : String) (w : World) (now n : Nat)
    (s0 : GhostState) (hc : s0.userInfoCache = none) (hl : s0.userInfoLoading = none) :
    (runN uid tok w now (n + 1) s0).2.2 = 1 ∧
    (runN uid tok w now (n + 1) s0).2.1 =
      (match w.usersInfo uid tok with
       | .failure => List.replicate (n + 1) LookupRes.thrown
       | .ok none => List.replicate (n + 1) LookupRes.absent
       | .ok (some u) =>
         if u.profile.isSome then List.replicate (n + 1) (LookupRes.found u)
         else LookupRes.absent :: List.replicate n (LookupRes.found u)) := by
  have h1 : lookupStartO (w.usersInfo uid tok) s0 =
      (.fetch (w.usersInfo uid tok),
       { s0 with userInfoLoading := some (w.usersInfo uid tok) }, 1) := by
    simp [lookupStartO, hc, hl]
  have h2 := startPhase_joined (w.usersInfo uid tok) n
    ({ s0 with userInfoLoading := some (w.usersInfo uid tok) }) (by simpa using hc) rfl
  have h3 : startPhase (w.usersInfo uid tok) (n + 1) s0 =
      (.fetch (w.usersInfo uid tok) :: List.replicate n (.joined (w.usersInfo uid tok)),
       { s0 with userInfoLoading := some (w.usersInfo uid tok) }, 1) := by
    simp [startPhase, h1, h2]
  unfold runN
  rw [h3]
  dsimp only
  rw [resolvePhase_cons]
  dsimp only [resolveStep]
  rw [resolvePhase_joined]
  cases hw : w.usersInfo uid tok with
  | failure =>
    dsimp only [initiatorResume, joinerResume]
    simp [List.replicate_succ]
  | ok uo =>
    cases uo with
    | none =>
      dsimp only [initiatorResume, joinerResume]
      simp [List.replicate_succ]
    | some u =>
      cases hp : u.profile with
      | none =>
        simp [initiatorResume, joinerResume, hp]
      | some p =>
        simp [initiatorResume, joinerResume, hp, List.replicate_succ]

/-- C2 witness: two concurrent lookups over a well-formed fetch — one remote
call, both callers receive the same user. -/
theorem C2_cache_coalescing_amended_witness :
    (runN "U" "T" wGoodC2 0 2 ghost0).2.2 = 1 ∧
    (runN "U" "T" wGoodC2 0 2 ghost0).2.1 = List.replicate 2 (LookupRes.found uGoodC2) := by
  have h := C2_cache_coalescing_amended "U" "T" wGoodC2 0 1 ghost0 rfl rfl
  exact ⟨h.1, by rw [h.2]; decide⟩

/-- C8: `toEntry ∘ fromEntry` reproduces exactly the three persisted fields
`{id, display_name, avatar_url}`, and `toEntry` is independent of all
in-memory-only state (user-info cache, in-flight handle, eviction timer,
activity time), whatever operations populated it. -/
theorem C8_entry_roundtrip :
    (∀ e : Entry, toEntry (fromEntry e) = e) ∧
    (∀ s1 s2 : GhostState, s1.userId = s2.userId → s1.displayName = s2.displayName →
      s1.avatarUrl = s2.avatarUrl → toEntry s1 = toEntry s2) := by
  constructor
  · intro e; cases e; rfl
  · intro s1 s2 h1 h2 h3; simp [toEntry, h1, h2, h3]

/-- C8 witness: a concrete round trip, and two ghosts differing only in
cache, in-flight handle, timer and activity time serialize identically. -/
theorem C8_entry_roundtrip_witness :
    toEntry (fromEntry ⟨some "id1", some "dn1", some "av1"⟩) =
      (⟨some "id1", some "dn1", some "av1"⟩ : Entry) ∧
    toEntry gC8a = toEntry gC8b :=
  ⟨C8_entry_roundtrip.1 ⟨some "id1", some "dn1", some "av1"⟩,
   C8_entry_roundtrip.2 gC8a gC8b rfl rfl rfl⟩

/-- C9: once `userInfoCache` is populated or a fetch is in flight,
`lookupUserInfo` leaves the state untouched, makes no remote call, and
returns a result independent of the `slackUserId`/`slackAccessToken`
arguments (and of the remote world and time). -/
theorem C9_cache_ignores_arguments (s : GhostState)
    (h : s.userInfoCache.isSome ∨ s.userInfoLoading.isSome)
    (uid1 tok1 uid2 tok2 : String) (w1 w2 : World) (t1 t2 : Nat) :
    (lookupUserInfo uid1 tok1 w1 t1 s).1 = s ∧
    (lookupUserInfo uid1 tok1 w1 t1 s).2.2 = 0 ∧
    (lookupUserInfo uid1 tok1 w1 t1 s).2.1 = (lookupUserInfo uid2 tok2 w2 t2 s).2.1 := by
  cases hcv : s.userInfoCache with
  | some u =>
    rw [lookupUserInfo_cached uid1 tok1 w1 t1 s u hcv,
      lookupUserInfo_cached uid2 tok2 w2 t2 s u hcv]
    exact ⟨rfl, rfl, rfl⟩
  | none =>
    have hlv : s.userInfoLoading.isSome := by
      rcases h with h | h
      · rw [hcv] at h; simp at h
      · exact h
    obtain ⟨r, hr⟩ := Option.isSome_iff_exists.mp hlv
    rw [lookupUserInfo_joined uid1 tok1 w1 t1 s r hcv hr,
      lookupUserInfo_joined uid2 tok2 w2 t2 s r hcv hr]
    exact ⟨rfl, rfl, rfl⟩

/-- C9 witness: with a populated cache, two calls with different arguments,
worlds and times agree, touch nothing, and make no remote call. -/
theorem C9_cache_ignores_arguments_witness :
    (lookupUserInfo "A" "B" wC9a 1 sC9).1 = sC9 ∧
    (lookupUserInfo "A" "B" wC9a 1 sC9).2.2 = 0 ∧
    (lookupUserInfo "A" "B" wC9a 1 sC9).2.1 = (lookupUserInfo "C" "D" wC9b 2 sC9).2.1 :=
  C9_cache_ignores_arguments sC9 (Or.inl rfl) "A" "B" "C" "D" wC9a wC9b 1 2

/-- C5: for every fetched profile, `lookupAvatarUrl`'s candidate chain
returns the first non-absent candidate in the fixed order original > 1024 >
512 > 192 > 72 > 48, where — per the source's JavaScript truthiness, also
the convention this spec uses at the public interface — an empty-string
candidate counts as absent (when no candidate is non-absent the chain's
value is itself absent/falsy); in particular with only `image_512 = "b"` and
`image_192 = "c"` present it returns `"b"`. -/
theorem C5_avatar_preference_order :
    (∀ p : ISlackProfile,
      truthyOpt (avatarFromUser (some ⟨some p⟩)) = firstNonAbsent (avatarCandidates p)) ∧
    avatarFromUser (some ⟨some pC5⟩) = some "b" := by
  constructor
  · intro p
    cases h1 : truthy p.image_original <;> cases h2 : truthy p.image_1024 <;>
      cases h3 : truthy p.image_512 <;> cases h4 : truthy p.image_192 <;>
      cases h5 : truthy p.image_72 <;> cases h6 : truthy p.image_48 <;>
      simp [truthyOpt, avatarFromUser, avatarChain, avatarCandidates, firstNonAbsent,
        jsOr, h1, h2, h3, h4, h5, h6]
  · decide

/-- C3: with a profile cached and eviction scheduled `USER_CACHE_TIMEOUT`
(10 minutes) after it was stored, a lookup at any time strictly before the
timer's firing time returns the cached value with no remote call and no
state change, while a lookup at any time at or after it (the timer having
fired) issues a fresh remote call. -/
theorem C3_ttl_expiry (s : GhostState) (u : ISlackUser) (t0 : Nat)
    (hc : s.userInfoCache = some u) (hl : s.userInfoLoading = none)
    (he : s.evictAt = some (t0 + USER_CACHE_TIMEOUT))
    (uid tok : String) (w : World) (t1 t2 : Nat)
    (hbefore : t1 < t0 + USER_CACHE_TIMEOUT) (hafter : t0 + USER_CACHE_TIMEOUT ≤ t2) :
    lookupUserInfo uid tok w t1 (fireTimers t1 s) = (s, .found u, 0) ∧
    (lookupUserInfo uid tok w t2 (fireTimers t2 s)).2.2 = 1 := by
  constructor
  · have hf : fireTimers t1 s = s := by
      simp [fireTimers, he, Nat.not_le.mpr hbefore]
    rw [hf]
    exact lookupUserInfo_cached uid tok w t1 s u hc
  · have hf : fireTimers t2 s = { s with userInfoCache := none, evictAt := none } := by
      simp [fireTimers, he, hafter]
    rw [hf]
    exact lookupUserInfo_fresh_counter uid tok w t2 _ rfl (by simpa using hl)

/-- C3 witness: cached at time 5, a lookup at time 5 (before expiry) is
served from cache; a lookup at time `5 + USER_CACHE_TIMEOUT` (after the
timer fired) makes one remote call. -/
theorem C3_ttl_expiry_witness :
    lookupUserInfo "U" "T" wC3 5 (fireTimers 5 sC3) = (sC3, .found uC3, 0) ∧
    (lookupUserInfo "U" "T" wC3 (5 + USER_CACHE_TIMEOUT)
        (fireTimers (5 + USER_CACHE_TIMEOUT) sC3)).2.2 = 1 :=
  C3_ttl_expiry sC3 uC3 5 rfl rfl rfl "U" "T" wC3 5 (5 + USER_CACHE_TIMEOUT)
    (by decide) (Nat.le_refl _)

/-- C6: display-name resolution prefers the (truthy) inline `user_name`,
skipping the lookup entirely; the profile fallback prefers `display_name`
over `real_name` (falling through exactly when `display_name` is falsy); and
when the resolved name is falsy or equals the stored `displayName`, the tail
performs no puppet call, no record update and no persistence. -/
theorem C6_displayname_resolution :
    (∀ (message : SlackMessage) (room : BridgedRoom) (w : World) (t : Nat)
        (s : GhostState) (token : String),
        room.AccessToken = some token → token ≠ "" → truthy message.user_name = true →
        updateDisplayname message room w t s = finishDisplayname message.user_name s 0) ∧
    (∀ (p : ISlackProfile) (d : String), p.display_name = some d → d ≠ "" →
        displayNameFromUser (some ⟨some p⟩) = some d) ∧
    (∀ p : ISlackProfile, truthy p.display_name = false →
        displayNameFromUser (some ⟨some p⟩) = p.real_name) ∧
    (∀ (dn : Option String) (s : GhostState) (n : Nat),
        truthy dn = false ∨ s.displayName = dn →
        finishDisplayname dn s n = ⟨s, [], 0, n, false⟩) := by
  refine ⟨?_, ?_, ?_, ?_⟩
  · intro message room w t s token htok h0 htm
    exact updateDisplayname_inline message room w t s token htok h0 htm
  · intro p d hd hd0
    simp [displayNameFromUser, jsOr, hd, truthy, hd0]
  · intro p hp
    simp [displayNameFromUser, jsOr, hp]
  · intro dn s n h
    exact finishDisplayname_noop dn s n h

/-- C6 witness: with a valid token and inline name `"Inline"` the lookup is
skipped, and a resolved name equal to the stored one is a no-op. -/
theorem C6_displayname_resolution_witness :
    updateDisplayname msgC6 roomC6 wC6 0 ghost0 = finishDisplayname (some "Inline") ghost0 0 ∧
    finishDisplayname (some "Same") sC6 4 = ⟨sC6, [], 0, 4, false⟩ :=
  ⟨C6_displayname_resolution.1 msgC6 roomC6 wC6 0 ghost0 "tk" rfl (by decide) (by decide),
   C6_displayname_resolution.2.2.2 (some "Same") sC6 4 (Or.inr rfl)⟩

/-- C10: an empty-string name is treated as absent — `getDisplayname`'s
extraction falls back to `real_name` when `display_name` is the empty
string, and `updateDisplayname` with an empty-string inline name falls back
to the lookup and, when that resolves to the empty string too, performs no
puppet call, no record update and no persistence. -/
theorem C10_empty_string_treated_as_absent :
    (∀ p : ISlackProfile, p.display_name = some "" →
        displayNameFromUser (some ⟨some p⟩) = p.real_name) ∧
    (∀ (message : SlackMessage) (room : BridgedRoom) (w : World) (t : Nat)
        (s s1 : GhostState) (token : String) (n : Nat),
        room.AccessToken = some token → token ≠ "" →
        message.user_name = some "" →
        getDisplayname message.user_id token w t s = (s1, .val (some ""), n) →
        (updateDisplayname message room w t s).calls = [] ∧
        (updateDisplayname message room w t s).stores = 0 ∧
        (updateDisplayname message room w t s).state.displayName = s.displayName) := by
  constructor
  · intro p hp
    simp [displayNameFromUser, jsOr, hp, truthy]
  · intro message room w t s s1 token n htok h0 hun hg
    have htm : truthy message.user_name = false := by simp [hun, truthy]
    have hupd := updateDisplayname_fallback message room w t s s1 token (some "") n
      htok h0 htm hg
    have hs1 : s1.displayName = s.displayName := by
      have h := getDisplayname_preserves_displayName message.user_id token w t s
      rw [hg] at h
      exact h
    rw [hupd, finishDisplayname_noop (some "") s1 n (Or.inl (by simp [truthy]))]
    exact ⟨rfl, rfl, hs1⟩

/-- C10 witness: inline name `""` falls back to a cached profile whose
`display_name` and `real_name` are both `""`; nothing is pushed, stored or
persisted. -/
theorem C10_empty_string_treated_as_absent_witness :
    displayNameFromUser (some ⟨some pC10⟩) = pC10.real_name ∧
    ((updateDisplayname msgC10 roomC10 wC10 0 sC10).calls = [] ∧
      (updateDisplayname msgC10 roomC10 wC10 0 sC10).stores = 0 ∧
      (updateDisplayname msgC10 roomC10 wC10 0 sC10).state.displayName = sC10.displayName) :=
  ⟨C10_empty_string_treated_as_absent.1 pC10 rfl,
   C10_empty_string_treated_as_absent.2 msgC10 roomC10 wC10 0 sC10 sC10 "tk0" 0
     rfl (by decide) rfl (by decide)⟩

/-- C7 counterexample: the greedy wildcards of the mention regex can span
intervening text, so an input holding two self-mention links is collapsed to
the last link's display text — the first mention is not rewritten to its own
display text, refuting "rewrites every self-mention link pattern in the
input to the plain display text". -/
theorem C7_counterexample :
    mentionReplace
        "x <https://matrix.to/#/@u:s|Bob> y <https://matrix.to/#/@v:t|Eve> z" =
      "x Eve z" ∧
    ("x Eve z" : String) ≠ "x Bob y Eve z" := by
  constructor
  · decide
  · decide

/-- C7 (amended): the rewrite of source line 181 replaces each maximal
greedy match of the mention pattern by its captured display segment — a
single well-formed self-mention link is rewritten to its display text, but
several links on one line are collapsed into one match rewritten to the last
display segment — and it is a total transform: text in which the pattern
matches nowhere passes through unchanged. -/
theorem C7_mention_rewrite_amended :
    (∀ text : String, hasMention text = false → mentionReplace text = text) ∧
    mentionReplace "x <https://matrix.to/#/@u:s|Bob> y" = "x Bob y" ∧
    mentionReplace
        "x <https://matrix.to/#/@u:s|Bob> y <https://matrix.to/#/@v:t|Eve> z" =
      "x Eve z" := by
  refine ⟨?_, by decide, by decide⟩
  intro text h
  have hall : ∀ i, matchAt (text.toList.drop i) = none := by
    intro i
    by_cases hi : i < text.length + 1
    · have h2 : ∀ j ∈ List.range (text.length + 1),
          (matchAt (text.toList.drop j)).isSome = false := by
        simpa [hasMention, List.any_eq_false] using h
      have h3 := h2 i (List.mem_range.mpr hi)
      cases hmv : matchAt (text.toList.drop i) with
      | none => rfl
      | some v => rw [hmv] at h3; simp at h3
    · have hlen : text.toList.length ≤ i := by
        have h4 : text.length ≤ i := by omega
        exact h4
      rw [List.drop_eq_nil_of_le hlen]
      decide
  unfold mentionReplace
  rw [replaceGo_id text.length text.toList hall]
  rfl

/-- C7 witness: a pattern-free text passes through unchanged. -/
theorem C7_mention_rewrite_amended_witness :
    hasMention "hello world" = false ∧ mentionReplace "hello world" = "hello world" :=
  ⟨by decide, C7_mention_rewrite_amended.1 "hello world" (by decide)⟩

/-- C4: calling `update` twice in a row with the same event, room, and
remote profile data — in a scenario where each attribute actually needs a
first write (name resolves truthy and differs from the stored one; avatar
resolves truthy, differs, has a filename segment, and the relay succeeds) —
performs exactly one puppet write per attribute and one persistence per
attribute on the first call, and the second call performs none: the stored
`displayName`/`avatarUrl` now equal the freshly resolved values. -/
theorem C4_diff_idempotence (message : SlackMessage) (room : BridgedRoom) (w : World)
    (t : Nat) (s0 : GhostState) (token d a uri seg : String) (u : ISlackUser)
    (p : ISlackProfile)
    (htok : room.AccessToken = some token) (h0 : token ≠ "")
    (hw : w.usersInfo message.user_id token = .ok (some u)) (hp : u.profile = some p)
    (hc : s0.userInfoCache = none) (hl : s0.userInfoLoading = none)
    (hd : (if truthy message.user_name then message.user_name
           else displayNameFromUser (some u)) = some d)
    (hd0 : d ≠ "") (hds : s0.displayName ≠ some d)
    (ha : avatarFromUser (some u) = some a) (ha0 : a ≠ "") (has : s0.avatarUrl ≠ some a)
    (hseg : lastSegment a = some seg) (hm : w.media a = some uri) :
    (update message room w t s0).calls = [.setDisplayName d, .setAvatarUrl uri] ∧
    (update message room w t s0).stores = 2 ∧
    (update message room w t (update message room w t s0).state).calls = [] ∧
    (update message room w t (update message room w t s0).state).stores = 0 := by
  cases htm : truthy message.user_name with
  | true =>
    rw [htm] at hd
    simp only [if_true] at hd
    have eUD1 : updateDisplayname message room w t s0 =
        ⟨{ s0 with displayName := some d }, [.setDisplayName d], 1, 0, false⟩ := by
      rw [updateDisplayname_inline message room w t s0 token htok h0 htm, hd,
        finishDisplayname_write d s0 0 hd0 hds]
    have eLA1 : lookupAvatarUrl message.user_id token w t { s0 with displayName := some d } =
        ({ s0 with
            displayName := some d
            userInfoCache := some u
            userInfoLoading := none
            evictAt := some (t + USER_CACHE_TIMEOUT) }, .val (some a), 1) := by
      rw [lookupAvatarUrl_fresh_ok message.user_id token w t
        { s0 with displayName := some d } u p (by exact hc) (by exact hl) hw hp, ha]
    have eUA1 : updateAvatar message room w t { s0 with displayName := some d } =
        ⟨{ s0 with
            displayName := some d
            userInfoCache := some u
            userInfoLoading := none
            evictAt := some (t + USER_CACHE_TIMEOUT)
            avatarUrl := some a },
         [.setAvatarUrl uri], 1, 1, false⟩ := by
      rw [updateAvatar_resolved message room w t _ _ token (some a) 1 htok h0 eLA1,
        finishAvatar_write w a _ 1 seg uri ha0 (by exact has) hseg hm]
    have eU1 : update message room w t s0 =
        ⟨{ s0 with
            displayName := some d
            userInfoCache := some u
            userInfoLoading := none
            evictAt := some (t + USER_CACHE_TIMEOUT)
            avatarUrl := some a },
         [.setDisplayName d, .setAvatarUrl uri], 2, 1⟩ := by
      unfold update
      dsimp only
      rw [eUD1]
      dsimp only
      rw [eUA1]
      rfl
    have eUD2 : updateDisplayname message room w t
        { s0 with
            displayName := some d
            userInfoCache := some u
            userInfoLoading := none
            evictAt := some (t + USER_CACHE_TIMEOUT)
            avatarUrl := some a } =
        ⟨{ s0 with
            displayName := some d
            userInfoCache := some u
            userInfoLoading := none
            evictAt := some (t + USER_CACHE_TIMEOUT)
            avatarUrl := some a },
         [], 0, 0, false⟩ := by
      rw [updateDisplayname_inline message room w t _ token htok h0 htm, hd,
        finishDisplayname_noop (some d) _ 0 (Or.inr rfl)]
    have eLA2 : lookupAvatarUrl message.user_id token w t
        { s0 with
            displayName := some d
            userInfoCache := some u
            userInfoLoading := none
            evictAt := some (t + USER_CACHE_TIMEOUT)
            avatarUrl := some a } =
        ({ s0 with
            displayName := some d
            userInfoCache := some u
            userInfoLoading := none
            evictAt := some (t + USER_CACHE_TIMEOUT)
            avatarUrl := some a },
         .val (some a), 0) := by
      rw [lookupAvatarUrl_cached message.user_id token w t _ u rfl, ha]
    have eUA2 : updateAvatar message room w t
        { s0 with
            displayName := some d
            userInfoCache := some u
            userInfoLoading := none
            evictAt := some (t + USER_CACHE_TIMEOUT)
            avatarUrl := some a } =
        ⟨{ s0 with
            displayName := some d
            userInfoCache := some u
            userInfoLoading := none
            evictAt := some (t + USER_CACHE_TIMEOUT)
            avatarUrl := some a },
         [], 0, 0, false⟩ := by
      rw [updateAvatar_resolved message room w t _ _ token (some a) 0 htok h0 eLA2,
        finishAvatar_noop w a _ 0 rfl]
    have eU2 : update message room w t
        { s0 with
            displayName := some d
            userInfoCache := some u
            userInfoLoading := none
            evictAt := some (t + USER_CACHE_TIMEOUT)
            avatarUrl := some a } =
        ⟨{ s0 with
            displayName := some d
            userInfoCache := some u
            userInfoLoading := none
            evictAt := some (t + USER_CACHE_TIMEOUT)
            avatarUrl := some a }, [], 0, 0⟩ := by
      unfold update
      dsimp only
      rw [eUD2]
      dsimp only
      rw [eUA2]
      rfl
    exact ⟨by rw [eU1], by rw [eU1], by rw [eU1]; dsimp only; rw [eU2],
      by rw [eU1]; dsimp only; rw [eU2]⟩
  | false =>
    rw [htm] at hd
    simp only [if_false, Bool.false_eq_true] at hd
    have eGD1 : getDisplayname message.user_id token w t s0 =
        ({ s0 with
            userInfoCache := some u
            userInfoLoading := none
            evictAt := some (t + USER_CACHE_TIMEOUT) }, .val (some d), 1) := by
      rw [getDisplayname_fresh_ok message.user_id token w t s0 u p hc hl hw hp, hd]
    have eUD1 : updateDisplayname message room w t s0 =
        ⟨{ s0 with
            userInfoCache := some u
            userInfoLoading := none
            evictAt := some (t + USER_CACHE_TIMEOUT)
            displayName := some d },
         [.setDisplayName d], 1, 1, false⟩ := by
      rw [updateDisplayname_fallback message room w t s0 _ token (some d) 1 htok h0 htm eGD1,
        finishDisplayname_write d _ 1 hd0 (by exact hds)]
    have eLA1 : lookupAvatarUrl message.user_id token w t
        { s0 with
            userInfoCache := some u
            userInfoLoading := none
            evictAt := some (t + USER_CACHE_TIMEOUT)
            displayName := some d } =
        ({ s0 with
            userInfoCache := some u
            userInfoLoading := none
            evictAt := some (t + USER_CACHE_TIMEOUT)
            displayName := some d },
         .val (some a), 0) := by
      rw [lookupAvatarUrl_cached message.user_id token w t _ u rfl, ha]
    have eUA1 : updateAvatar message room w t
        { s0 with
            userInfoCache := some u
            userInfoLoading := none
            evictAt := some (t + USER_CACHE_TIMEOUT)
            displayName := some d } =
        ⟨{ s0 with
            userInfoCache := some u
            userInfoLoading := none
            evictAt := some (t + USER_CACHE_TIMEOUT)
            displayName := some d
            avatarUrl := some a },
         [.setAvatarUrl uri], 1, 0, false⟩ := by
      rw [updateAvatar_resolved message room w t _ _ token (some a) 0 htok h0 eLA1,
        finishAvatar_write w a _ 0 seg uri ha0 (by exact has) hseg hm]
    have eU1 : update message room w t s0 =
        ⟨{ s0 with
            userInfoCache := some u
            userInfoLoading := none
            evictAt := some (t + USER_CACHE_TIMEOUT)
            displayName := some d
            avatarUrl := some a },
         [.setDisplayName d, .setAvatarUrl uri], 2, 1⟩ := by
      unfold update
      dsimp only
      rw [eUD1]
      dsimp only
      rw [eUA1]
      rfl
    have eGD2 : getDisplayname message.user_id token w t
        { s0 with
            userInfoCache := some u
            userInfoLoading := none
            evictAt := some (t + USER_CACHE_TIMEOUT)
            displayName := some d
            avatarUrl := some a } =
        ({ s0 with
            userInfoCache := some u
            userInfoLoading := none
            evictAt := some (t + USER_CACHE_TIMEOUT)
            displayName := some d
            avatarUrl := some a },
         .val (some d), 0) := by
      rw [getDisplayname_cached message.user_id token w t _ u rfl, hd]
    have eUD2 : updateDisplayname message room w t
        { s0 with
            userInfoCache := some u
            userInfoLoading := none
            evictAt := some (t + USER_CACHE_TIMEOUT)
            displayName := some d
            avatarUrl := some a } =
        ⟨{ s0 with
            userInfoCache := some u
            userInfoLoading := none
            evictAt := some (t + USER_CACHE_TIMEOUT)
            displayName := some d
            avatarUrl := some a },
         [], 0, 0, false⟩ := by
      rw [updateDisplayname_fallback message room w t _ _ token (some d) 0 htok h0 htm eGD2,
        finishDisplayname_noop (some d) _ 0 (Or.inr rfl)]
    have eLA2 : lookupAvatarUrl message.user_id token w t
        { s0 with
            userInfoCache := some u
            userInfoLoading := none
            evictAt := some (t + USER_CACHE_TIMEOUT)
            displayName := some d
            avatarUrl := some a } =
        ({ s0 with
            userInfoCache := some u
            userInfoLoading := none
            evictAt := some (t + USER_CACHE_TIMEOUT)
            displayName := some d
            avatarUrl := some a },
         .val (some a), 0) := by
      rw [lookupAvatarUrl_cached message.user_id token w t _ u rfl, ha]
    have eUA2 : updateAvatar message room w t
        { s0 with
            userInfoCache := some u
            userInfoLoading := none
            evictAt := some (t + USER_CACHE_TIMEOUT)
            displayName := some d
            avatarUrl := some a } =
        ⟨{ s0 with
            userInfoCache := some u
            userInfoLoading := none
            evictAt := some (t + USER_CACHE_TIMEOUT)
            displayName := some d
            avatarUrl := some a },
         [], 0, 0, false⟩ := by
      rw [updateAvatar_resolved message room w t _ _ token (some a) 0 htok h0 eLA2,
        finishAvatar_noop w a _ 0 rfl]
    have eU2 : update message room w t
        { s0 with
            userInfoCache := some u
            userInfoLoading := none
            evictAt := some (t + USER_CACHE_TIMEOUT)
            displayName := some d
            avatarUrl := some a } =
        ⟨{ s0 with
            userInfoCache := some u
            userInfoLoading := none
            evictAt := some (t + USER_CACHE_TIMEOUT)
            displayName := some d
            avatarUrl := some a }, [], 0, 0⟩ := by
      unfold update
      dsimp only
      rw [eUD2]
      dsimp only
      rw [eUA2]
      rfl
    exact ⟨by rw [eU1], by rw [eU1], by rw [eU1]; dsimp only; rw [eU2],
      by rw [eU1]; dsimp only; rw [eU2]⟩

/-- C4 witness: the concrete scenario — inline name `"Alice"`, avatar
`image_512`, fresh ghost — yields exactly one `setDisplayName` and one
`setAvatarUrl` plus two persistences on the first `update`, and none on the
second. -/
theorem C4_diff_idempotence_witness :
    (update msgC4 roomC4 wC4 0 ghost0).calls =
      [.setDisplayName "Alice", .setAvatarUrl "mxc://content/1"] ∧
    (update msgC4 roomC4 wC4 0 ghost0).stores = 2 ∧
    (update msgC4 roomC4 wC4 0 (update msgC4 roomC4 wC4 0 ghost0).state).calls = [] ∧
    (update msgC4 roomC4 wC4 0 (update msgC4 roomC4 wC4 0 ghost0).state).stores = 0 :=
  C4_diff_idempotence msgC4 roomC4 wC4 0 ghost0 "xoxp-token" "Alice"
    "https://img.example/p/ava.png" "mxc://content/1" "ava.png" uC4 pC4
    rfl (by decide) rfl rfl rfl rfl (by decide) (by decide) (by decide)
    (by decide) (by decide) (by decide) (by decide) rfl

end SlackGhost
